import Mathlib

/-!
Shallow embedding of `src/Security-sdk.py` (class `SecurityScanner`): a
command-line orchestrator that runs pip-audit, Safety and Bandit as
subprocesses, classifies their exit codes, and relays their output.

The external world is a record `Env`: which executables the OS can find,
what `(exit code, stdout, stderr)` each command produces, whether the
interpreter runs inside a virtual environment (`sys.prefix != sys.base_prefix`),
which paths exist, and the line the interactive prompt reads.

Side effects (console prints, log lines, subprocess spawns) are collected in
an `Event` trace.  A Python function that can raise an uncaught exception is
embedded with an `Except PyExn` result; `sys.exit` is an `Option Nat` exit
code.  `subprocess.run(..., check=True)` raises `FileNotFoundError` when the
executable (the command's first word) is not found, and
`CalledProcessError` on a non-zero exit code.
-/

namespace SecuritySdk

/-- One observable side effect of the program: a console print, a log line at
a given severity (logging.info / warning / error), or a subprocess spawn
attempt carrying its argument list. -/
inductive Event where
  | spawn (cmd : List String)
  | print (s : String)
  | logInfo (s : String)
  | logWarning (s : String)
  | logError (s : String)
deriving DecidableEq, Repr

/-- The Python exceptions that subprocess.run with check=True can raise:
FileNotFoundError (executable not found) and subprocess.CalledProcessError,
which carries returncode, captured stdout and captured stderr. -/
inductive PyExn where
  | fileNotFound
  | calledProcessError (returncode : Int) (stdout stderr : String)
deriving DecidableEq, Repr

/-- The environment the script runs in: `findable` says whether the OS can
locate a given executable name; `exec` gives the (returncode, stdout, stderr)
a found command produces; `inVenv` is the value of
`sys.prefix != sys.base_prefix`; `pathExists` is `Path.exists`; `userInput`
is the raw line returned by `input()`; `pyExe` is `sys.executable`. -/
structure Env where
  findable : String → Bool
  exec : List String → Int × String × String
  inVenv : Bool
  pathExists : String → Bool
  userInput : String
  pyExe : String

/-- Embeds `subprocess.run(cmd, check=True, stdout=PIPE, stderr=PIPE)`:
FileNotFoundError when the executable (head of the argument list) is not
found, CalledProcessError when the exit code is non-zero, otherwise the
captured (stdout, stderr). -/
def subprocessRunCheck (env : Env) (cmd : List String) :
    Except PyExn (String × String) :=
  if env.findable (cmd.head?.getD "") = true then
    match env.exec cmd with
    | (returncode, out, err) =>
      if returncode = 0 then Except.ok (out, err)
      else Except.error (PyExn.calledProcessError returncode out err)
  else Except.error PyExn.fileNotFound

/-- The remediation message `_verify_tool_installed` builds for a missing
tool (source lines 36-37). -/
def remediationMsg (tool_name : String) : String :=
  "Error: " ++ tool_name ++ " is not installed or not found in PATH.\n" ++
    "Please install " ++ tool_name ++ " using 'pip install " ++ tool_name ++
    "' and ensure it's in your PATH."

/-- Embeds `SecurityScanner._verify_tool_installed` (lines 28-40): run the
version probe; on success log that the tool is installed; on
CalledProcessError or FileNotFoundError print and log the remediation
message and call `sys.exit(1)` (returned as `some 1`). -/
def verify_tool_installed (env : Env) (tool_name : String)
    (check_command : List String) : List Event × Option Nat :=
  match subprocessRunCheck env check_command with
  | Except.ok _ =>
      ([Event.spawn check_command,
        Event.logInfo (tool_name ++ " is installed.")], none)
  | Except.error _ =>
      ([Event.spawn check_command,
        Event.print (remediationMsg tool_name),
        Event.logError (remediationMsg tool_name)], some 1)

/-- The version probe `__init__` registers for pip-audit (line 24). -/
def pipAuditProbe : List String := ["pip-audit", "--version"]

/-- The version probe `__init__` registers for safety (line 25). -/
def safetyProbe : List String := ["safety", "--version"]

/-- Embeds `SecurityScanner.__init__` (lines 15-26) after the logging
configuration: verify pip-audit, then safety; `sys.exit(1)` inside the first
failing check aborts the constructor, so the second probe only runs when the
first succeeded.  (The source deliberately registers no probe for Bandit:
line 26's comment defers it to virtual-environment handling.) -/
def scannerInit (env : Env) : List Event × Option Nat :=
  match verify_tool_installed env "pip-audit" pipAuditProbe with
  | (e1, some c) => (e1, some c)
  | (e1, none) =>
      match verify_tool_installed env "safety" safetyProbe with
      | (e2, x2) => (e1 ++ e2, x2)

/-- Embeds `SecurityScanner.run_pip_audit` (lines 48-67): run `pip-audit`;
on exit 0 print and return stdout; on CalledProcessError print and log the
error with the captured stderr and return None; FileNotFoundError is not
caught and propagates. -/
def run_pip_audit (env : Env) : List Event × Except PyExn (Option String) :=
  let ev := [Event.print "Running pip-audit...\n",
    Event.logInfo "Running pip-audit.", Event.spawn ["pip-audit"]]
  match subprocessRunCheck env ["pip-audit"] with
  | Except.ok (out, _) =>
      (ev ++ [Event.print "pip-audit Results:\n", Event.print out,
        Event.logInfo "pip-audit completed successfully."],
       Except.ok (some out))
  | Except.error (PyExn.calledProcessError _ _ err) =>
      let error_msg := "pip-audit encountered an error:\n" ++ err
      (ev ++ [Event.print error_msg, Event.logError error_msg],
       Except.ok none)
  | Except.error PyExn.fileNotFound =>
      (ev, Except.error PyExn.fileNotFound)

/-- Embeds `SecurityScanner.run_safety` (lines 69-96): run
`safety check --full-report`; exit 0 prints and returns stdout; exit code 1
(vulnerabilities found) prints and logs a warning carrying stdout and
returns stdout; any other non-zero exit prints and logs an error carrying
stderr and returns None; FileNotFoundError is not caught. -/
def run_safety (env : Env) : List Event × Except PyExn (Option String) :=
  let ev := [Event.print "Running Safety...\n",
    Event.logInfo "Running Safety.",
    Event.spawn ["safety", "check", "--full-report"]]
  match subprocessRunCheck env ["safety", "check", "--full-report"] with
  | Except.ok (out, _) =>
      (ev ++ [Event.print "Safety Results:\n", Event.print out,
        Event.logInfo "Safety completed successfully."],
       Except.ok (some out))
  | Except.error (PyExn.calledProcessError returncode out err) =>
      if returncode = 1 then
        let warning_msg := "Safety found vulnerabilities:\n" ++ out
        (ev ++ [Event.print warning_msg, Event.logWarning warning_msg],
         Except.ok (some out))
      else
        let error_msg := "Safety encountered an error:\n" ++ err
        (ev ++ [Event.print error_msg, Event.logError error_msg],
         Except.ok none)
  | Except.error PyExn.fileNotFound =>
      (ev, Except.error PyExn.fileNotFound)

/-- Embeds `SecurityScanner._is_virtual_environment` (lines 42-46):
`sys.prefix != sys.base_prefix`. -/
def is_virtual_environment (env : Env) : Bool := env.inVenv

/-- The error message run_bandit prints outside a virtual environment
(lines 109-110). -/
def banditVenvErrorMsg : String :=
  "Error: Bandit must be run inside a virtual environment.\n" ++
    "Please activate your virtual environment and ensure Bandit is installed within it."

/-- The error message run_bandit prints for a missing path (line 116). -/
def banditMissingPathMsg (file_path : String) : String :=
  "Error: The file or directory '" ++ file_path ++ "' does not exist."

/-- Embeds `SecurityScanner.run_bandit` (lines 98-141): refuse outside a
virtual environment; then refuse a nonexistent path; otherwise run
`sys.executable -m bandit -r <path>`.  Exit 0 prints and returns stdout;
on CalledProcessError, exit 1 logs a warning with stdout and any other code
logs an error with stderr, and either way the function returns
`e.stdout if e.stdout else e.stderr` (Python truthiness: stdout unless it is
empty, else stderr); FileNotFoundError is not caught. -/
def run_bandit (env : Env) (file_path : String) :
    List Event × Except PyExn (Option String) :=
  if is_virtual_environment env = false then
    ([Event.print banditVenvErrorMsg, Event.logError banditVenvErrorMsg],
     Except.ok none)
  else if env.pathExists file_path = false then
    ([Event.print (banditMissingPathMsg file_path),
      Event.logError (banditMissingPathMsg file_path)], Except.ok none)
  else
    let command := [env.pyExe, "-m", "bandit", "-r", file_path]
    let ev := [Event.print ("Running Bandit on '" ++ file_path ++ "'...\n"),
      Event.logInfo ("Running Bandit on '" ++ file_path ++ "'."),
      Event.spawn command]
    match subprocessRunCheck env command with
    | Except.ok (out, _) =>
        (ev ++ [Event.print "Bandit Results:\n", Event.print out,
          Event.logInfo "Bandit completed successfully."],
         Except.ok (some out))
    | Except.error (PyExn.calledProcessError returncode out err) =>
        let fallback := if out = "" then err else out
        if returncode = 1 then
          let warning_msg := "Bandit found issues:\n" ++ out
          (ev ++ [Event.print warning_msg, Event.logWarning warning_msg],
           Except.ok (some fallback))
        else
          let error_msg := "Bandit encountered an error:\n" ++ err
          (ev ++ [Event.print error_msg, Event.logError error_msg],
           Except.ok (some fallback))
    | Except.error PyExn.fileNotFound =>
        (ev, Except.error PyExn.fileNotFound)

/-- Modelled from Python's pathlib (library behavior, not code of this
repository): rendering `Path(s)` back to a string maps the empty string to
"." (pathlib normalizes `Path('')` to the current directory) and keeps the
other strings considered here verbatim. -/
def pathOfString (s : String) : String := if s = "" then "." else s

/-- Modelled from Python's `str.strip()` (library behavior, not code of this
repository): remove leading and trailing whitespace characters. -/
def pyStrip (s : String) : String :=
  String.mk
    (((s.data.dropWhile Char.isWhitespace).reverse.dropWhile
      Char.isWhitespace).reverse)

/-- Embeds `SecurityScanner.prompt_and_run_bandit` (lines 143-153): read a
line, strip surrounding whitespace, convert it to a `Path`, and run Bandit
on it. -/
def prompt_and_run_bandit (env : Env) :
    List Event × Except PyExn (Option String) :=
  let file_path := pathOfString (pyStrip env.userInput)
  run_bandit env file_path

/-- The separator `run_all_scans` prints between sections (lines 162, 164). -/
def separatorLine : String := "\n-----------------------------------\n"

/-- Embeds `SecurityScanner.run_all_scans` (lines 155-167): banner, then
pip-audit, separator, Safety, separator, the Bandit prompt-and-run, and a
completion banner; an uncaught exception inside one step aborts the rest. -/
def run_all_scans (env : Env) : List Event × Except PyExn Unit :=
  let ev0 := [Event.print "Starting all security scans...\n",
    Event.logInfo "Starting all security scans."]
  match run_pip_audit env with
  | (e1, Except.error e) => (ev0 ++ e1, Except.error e)
  | (e1, Except.ok _) =>
    match run_safety env with
    | (e2, Except.error e) =>
        (ev0 ++ e1 ++ [Event.print separatorLine] ++ e2, Except.error e)
    | (e2, Except.ok _) =>
      match prompt_and_run_bandit env with
      | (e3, Except.error e) =>
          (ev0 ++ e1 ++ [Event.print separatorLine] ++ e2 ++
            [Event.print separatorLine] ++ e3, Except.error e)
      | (e3, Except.ok _) =>
          (ev0 ++ e1 ++ [Event.print separatorLine] ++ e2 ++
            [Event.print separatorLine] ++ e3 ++
            [Event.print "\nSecurity scans completed.",
             Event.logInfo "All security scans completed."], Except.ok ())

/-- How a run of the whole script ends: normal completion with process exit
code 0, `sys.exit` with the given code, or an uncaught Python exception
(which makes the interpreter exit non-zero with a traceback). -/
inductive Termination where
  | normal (code : Int)
  | exited (code : Nat)
  | crashed (e : PyExn)
deriving DecidableEq, Repr

/-- Embeds the `__main__` block (lines 170-172): construct the scanner (its
`__init__` may `sys.exit(1)`), then `run_all_scans`; normal completion exits
the process with code 0. -/
def main_program (env : Env) : List Event × Termination :=
  match scannerInit env with
  | (ei, some c) => (ei, Termination.exited c)
  | (ei, none) =>
    match run_all_scans env with
    | (es, Except.ok _) => (ei ++ es, Termination.normal 0)
    | (es, Except.error e) => (ei ++ es, Termination.crashed e)

/-- A version probe fails when the executable is not found or the probe
exits non-zero (the two cases `_verify_tool_installed` treats as
unavailable). -/
def probeFails (env : Env) (cmd : List String) : Prop :=
  env.findable (cmd.head?.getD "") = false ∨ (env.exec cmd).1 ≠ 0

/-- An environment in which every executable is found and every command
exits 0 with empty output; the prompt answers "x" and every path exists.
Used to instantiate hypotheses of the claim theorems at concrete inputs. -/
def allOkEnv : Env :=
  { findable := fun _ => true
    exec := fun _ => (0, "", "")
    inVenv := true
    pathExists := fun _ => true
    userInput := "x"
    pyExe := "python" }

/-- An environment realizing the spec's safety example: every executable is
found, every command exits 1 with stdout "Found 2 vulnerabilities" and empty
stderr. -/
def safetyFindingsEnv : Env :=
  { findable := fun _ => true
    exec := fun _ => (1, "Found 2 vulnerabilities", "")
    inVenv := true
    pathExists := fun _ => true
    userInput := "x"
    pyExe := "python" }

/-- An environment realizing the spec's audit example: every command exits 2
with empty stdout and stderr "network error". -/
def auditFailEnv : Env :=
  { findable := fun _ => true
    exec := fun _ => (2, "", "network error")
    inVenv := true
    pathExists := fun _ => true
    userInput := "x"
    pyExe := "python" }

/-- An environment whose bandit run exits 1 with empty stdout and stderr
"issue details", inside a virtual environment with every path present. -/
def banditIssuesEnv : Env :=
  { findable := fun _ => true
    exec := fun _ => (1, "", "issue details")
    inVenv := true
    pathExists := fun _ => true
    userInput := "x"
    pyExe := "python" }

/-- An environment outside any virtual environment, in which no path exists
(every executable is found and every command exits 0). -/
def noVenvEnv : Env :=
  { findable := fun _ => true
    exec := fun _ => (0, "", "")
    inVenv := false
    pathExists := fun _ => false
    userInput := "x"
    pyExe := "python" }

/-- An environment inside a virtual environment in which no path exists. -/
def venvNoPathEnv : Env :=
  { findable := fun _ => true
    exec := fun _ => (0, "", "")
    inVenv := true
    pathExists := fun _ => false
    userInput := "x"
    pyExe := "python" }

/-- An environment in a virtual environment where every path exists and the
bandit run exits 3 with both captured streams empty. -/
def banditEmptyStreamsEnv : Env :=
  { findable := fun _ => true
    exec := fun _ => (3, "", "")
    inVenv := true
    pathExists := fun _ => true
    userInput := "x"
    pyExe := "python" }

/-- An environment whose prompt answer is three spaces, inside a virtual
environment with every path present and every command exiting 0. -/
def whitespaceEnv : Env :=
  { findable := fun _ => true
    exec := fun _ => (0, "ok", "")
    inVenv := true
    pathExists := fun _ => true
    userInput := "   "
    pyExe := "python" }

/-- An environment in which no executable is found at all. -/
def noToolsEnv : Env :=
  { findable := fun _ => false
    exec := fun _ => (0, "", "")
    inVenv := false
    pathExists := fun _ => false
    userInput := "x"
    pyExe := "python" }

end SecuritySdk

namespace SecuritySdk

/-- C1: for run_safety, exit code exactly 1 means findings were reported:
the payload returned is the captured stdout (not stderr) and it is surfaced
as a warning; any other non-zero exit is an execution error: the captured
stderr is surfaced in the printed and logged message and None is returned. -/
theorem claim_C1 (env : Env) (returncode : Int) (out err : String)
    (hf : env.findable "safety" = true)
    (hx : env.exec ["safety", "check", "--full-report"] = (returncode, out, err)) :
    (returncode = 1 →
      run_safety env =
        ([Event.print "Running Safety...\n", Event.logInfo "Running Safety.",
          Event.spawn ["safety", "check", "--full-report"],
          Event.print ("Safety found vulnerabilities:\n" ++ out),
          Event.logWarning ("Safety found vulnerabilities:\n" ++ out)],
         Except.ok (some out))) ∧
    (returncode ≠ 0 → returncode ≠ 1 →
      run_safety env =
        ([Event.print "Running Safety...\n", Event.logInfo "Running Safety.",
          Event.spawn ["safety", "check", "--full-report"],
          Event.print ("Safety encountered an error:\n" ++ err),
          Event.logError ("Safety encountered an error:\n" ++ err)],
         Except.ok none)) := by
  constructor
  · intro h
    subst h
    simp [run_safety, subprocessRunCheck, hx, hf]
  · intro h0 h1
    simp [run_safety, subprocessRunCheck, hx, hf, h0, h1]

/-- C1 witness: the spec's example — safety exits 1 with stdout
"Found 2 vulnerabilities" and the adapter returns that stdout with a
warning logged. -/
theorem claim_C1_witness :
    run_safety safetyFindingsEnv =
      ([Event.print "Running Safety...\n", Event.logInfo "Running Safety.",
        Event.spawn ["safety", "check", "--full-report"],
        Event.print ("Safety found vulnerabilities:\n" ++ "Found 2 vulnerabilities"),
        Event.logWarning ("Safety found vulnerabilities:\n" ++ "Found 2 vulnerabilities")],
       Except.ok (some "Found 2 vulnerabilities")) :=
  (claim_C1 safetyFindingsEnv 1 "Found 2 vulnerabilities" "" rfl rfl).1 rfl

/-- C6: for run_pip_audit, exit 0 returns exactly the captured stdout (also
printed untransformed), and any non-zero exit prints and logs an execution
error carrying the captured stderr and returns None (no report). -/
theorem claim_C6 (env : Env) (returncode : Int) (out err : String)
    (hf : env.findable "pip-audit" = true)
    (hx : env.exec ["pip-audit"] = (returncode, out, err)) :
    (returncode = 0 →
      run_pip_audit env =
        ([Event.print "Running pip-audit...\n", Event.logInfo "Running pip-audit.",
          Event.spawn ["pip-audit"], Event.print "pip-audit Results:\n",
          Event.print out, Event.logInfo "pip-audit completed successfully."],
         Except.ok (some out))) ∧
    (returncode ≠ 0 →
      run_pip_audit env =
        ([Event.print "Running pip-audit...\n", Event.logInfo "Running pip-audit.",
          Event.spawn ["pip-audit"],
          Event.print ("pip-audit encountered an error:\n" ++ err),
          Event.logError ("pip-audit encountered an error:\n" ++ err)],
         Except.ok none)) := by
  constructor
  · intro h
    subst h
    simp [run_pip_audit, subprocessRunCheck, hx, hf]
  · intro h0
    simp [run_pip_audit, subprocessRunCheck, hx, hf, h0]

/-- C6 witness: the spec's example — pip-audit exits 2 with stderr
"network error"; the adapter returns None and the logged message carries
"network error". -/
theorem claim_C6_witness :
    run_pip_audit auditFailEnv =
      ([Event.print "Running pip-audit...\n", Event.logInfo "Running pip-audit.",
        Event.spawn ["pip-audit"],
        Event.print ("pip-audit encountered an error:\n" ++ "network error"),
        Event.logError ("pip-audit encountered an error:\n" ++ "network error")],
       Except.ok none) :=
  (claim_C6 auditFailEnv 2 "" "network error" rfl rfl).2 (by decide)

end SecuritySdk

namespace SecuritySdk

/-- C4: run_bandit exit-code classification once the subprocess runs: exit 0
is a success with payload the captured stdout; exit 1 reports findings (a
logged warning) with payload stdout unless stdout is empty, else stderr; any
other non-zero exit is an execution error (a logged error carrying stderr)
with the same stdout-preferred fallback payload. -/
theorem claim_C4 (env : Env) (fp : String) (returncode : Int) (out err : String)
    (hv : env.inVenv = true) (hp : env.pathExists fp = true)
    (hf : env.findable env.pyExe = true)
    (hx : env.exec [env.pyExe, "-m", "bandit", "-r", fp] = (returncode, out, err)) :
    (returncode = 0 →
      run_bandit env fp =
        ([Event.print ("Running Bandit on '" ++ fp ++ "'...\n"),
          Event.logInfo ("Running Bandit on '" ++ fp ++ "'."),
          Event.spawn [env.pyExe, "-m", "bandit", "-r", fp],
          Event.print "Bandit Results:\n", Event.print out,
          Event.logInfo "Bandit completed successfully."],
         Except.ok (some out))) ∧
    (returncode = 1 →
      run_bandit env fp =
        ([Event.print ("Running Bandit on '" ++ fp ++ "'...\n"),
          Event.logInfo ("Running Bandit on '" ++ fp ++ "'."),
          Event.spawn [env.pyExe, "-m", "bandit", "-r", fp],
          Event.print ("Bandit found issues:\n" ++ out),
          Event.logWarning ("Bandit found issues:\n" ++ out)],
         Except.ok (some (if out = "" then err else out)))) ∧
    (returncode ≠ 0 → returncode ≠ 1 →
      run_bandit env fp =
        ([Event.print ("Running Bandit on '" ++ fp ++ "'...\n"),
          Event.logInfo ("Running Bandit on '" ++ fp ++ "'."),
          Event.spawn [env.pyExe, "-m", "bandit", "-r", fp],
          Event.print ("Bandit encountered an error:\n" ++ err),
          Event.logError ("Bandit encountered an error:\n" ++ err)],
         Except.ok (some (if out = "" then err else out)))) := by
  refine ⟨?_, ?_, ?_⟩
  · intro h
    subst h
    simp [run_bandit, is_virtual_environment, subprocessRunCheck, hv, hp, hf, hx]
  · intro h
    subst h
    simp [run_bandit, is_virtual_environment, subprocessRunCheck, hv, hp, hf, hx]
  · intro h0 h1
    simp [run_bandit, is_virtual_environment, subprocessRunCheck, hv, hp, hf, hx,
      h0, h1]

/-- C4 witness: bandit exits 1 with empty stdout, so the payload falls back
to the captured stderr. -/
theorem claim_C4_witness :
    (run_bandit banditIssuesEnv "proj").2 = Except.ok (some "issue details") := by
  have h :=
    (claim_C4 banditIssuesEnv "proj" 1 "" "issue details" rfl rfl rfl rfl).2.1 rfl
  rw [h]
  simp

/-- C5 counterexample: outside a virtual environment, run_bandit on the
nonexistent path "missing.py" reports the virtual-environment error, not a
"does not exist" outcome: the claim's unconditional reading is false. -/
theorem claim_C5_counterexample :
    noVenvEnv.pathExists "missing.py" = false ∧
    run_bandit noVenvEnv "missing.py" =
      ([Event.print banditVenvErrorMsg, Event.logError banditVenvErrorMsg],
       Except.ok none) ∧
    Event.print (banditMissingPathMsg "missing.py") ∉
      (run_bandit noVenvEnv "missing.py").1 := by
  refine ⟨rfl, by simp [run_bandit, is_virtual_environment, noVenvEnv], ?_⟩
  have h : run_bandit noVenvEnv "missing.py" =
      ([Event.print banditVenvErrorMsg, Event.logError banditVenvErrorMsg],
       Except.ok none) := by
    simp [run_bandit, is_virtual_environment, noVenvEnv]
  rw [h]
  simp [banditVenvErrorMsg, banditMissingPathMsg]

/-- C5 as amended: inside a virtual environment, for every target path that
does not exist run_bandit spawns no subprocess and returns None after
printing and logging the descriptive "does not exist" message. -/
theorem claim_C5 (env : Env) (fp : String)
    (hv : env.inVenv = true) (hp : env.pathExists fp = false) :
    run_bandit env fp =
      ([Event.print (banditMissingPathMsg fp),
        Event.logError (banditMissingPathMsg fp)], Except.ok none) ∧
    ∀ c, Event.spawn c ∉ (run_bandit env fp).1 := by
  have h : run_bandit env fp =
      ([Event.print (banditMissingPathMsg fp),
        Event.logError (banditMissingPathMsg fp)], Except.ok none) := by
    simp [run_bandit, is_virtual_environment, hv, hp]
  refine ⟨h, ?_⟩
  intro c
  rw [h]
  simp

/-- C5 witness: inside a virtual environment, run_bandit on the nonexistent
"missing.py" returns the path-invalid outcome without spawning anything. -/
theorem claim_C5_witness :
    run_bandit venvNoPathEnv "missing.py" =
      ([Event.print (banditMissingPathMsg "missing.py"),
        Event.logError (banditMissingPathMsg "missing.py")], Except.ok none) ∧
    ∀ c, Event.spawn c ∉ (run_bandit venvNoPathEnv "missing.py").1 :=
  claim_C5 venvNoPathEnv "missing.py" rfl rfl

/-- C8: run_bandit checks the virtual-environment precondition before the
path-existence precondition: outside a virtual environment it returns None
with the environment error for every path, its result is unchanged under any
replacement of the file-system oracle, and no subprocess is spawned. -/
theorem claim_C8 (env : Env) (fp : String) (hv : env.inVenv = false) :
    run_bandit env fp =
      ([Event.print banditVenvErrorMsg, Event.logError banditVenvErrorMsg],
       Except.ok none) ∧
    (∀ q, run_bandit { env with pathExists := q } fp = run_bandit env fp) ∧
    ∀ c, Event.spawn c ∉ (run_bandit env fp).1 := by
  have h : ∀ q, run_bandit { env with pathExists := q } fp =
      ([Event.print banditVenvErrorMsg, Event.logError banditVenvErrorMsg],
       Except.ok none) := by
    intro q
    simp [run_bandit, is_virtual_environment, hv]
  have h0 : run_bandit env fp =
      ([Event.print banditVenvErrorMsg, Event.logError banditVenvErrorMsg],
       Except.ok none) := by
    simp [run_bandit, is_virtual_environment, hv]
  refine ⟨h0, fun q => (h q).trans h0.symm, ?_⟩
  intro c
  rw [h0]
  simp

/-- C8 witness: in the concrete no-venv environment, run_bandit on a path
that does exist still returns the environment error without touching the
file system. -/
theorem claim_C8_witness :
    run_bandit noVenvEnv "present.py" =
      ([Event.print banditVenvErrorMsg, Event.logError banditVenvErrorMsg],
       Except.ok none) :=
  (claim_C8 noVenvEnv "present.py" rfl).1

end SecuritySdk

namespace SecuritySdk

/-- When both run_bandit preconditions hold and the interpreter executable
is findable, the scan runs and returns a string (never None): stdout on exit
0, and the stdout-preferred fallback on CalledProcessError. -/
lemma run_bandit_some (env : Env) (fp : String) (hv : env.inVenv = true)
    (hp : env.pathExists fp = true) (hf : env.findable env.pyExe = true) :
    ∃ s, (run_bandit env fp).2 = Except.ok (some s) := by
  rcases hx : env.exec [env.pyExe, "-m", "bandit", "-r", fp] with ⟨c, out, err⟩
  by_cases hc : c = 0
  · subst hc
    exact ⟨out, by
      simp [run_bandit, is_virtual_environment, subprocessRunCheck, hv, hp, hf, hx]⟩
  · by_cases h1 : c = 1
    · subst h1
      exact ⟨if out = "" then err else out, by
        simp [run_bandit, is_virtual_environment, subprocessRunCheck, hv, hp, hf, hx]⟩
    · exact ⟨if out = "" then err else out, by
        simp [run_bandit, is_virtual_environment, subprocessRunCheck, hv, hp, hf,
          hx, hc, h1]⟩

/-- C9: run_bandit returns None exactly when a precondition fails (not in a
virtual environment, or the path does not exist); whenever both
preconditions hold and the interpreter is findable the function returns a
string, and when the subprocess fails with both captured streams empty that
string is the empty string, not None. -/
theorem claim_C9 (env : Env) (fp : String) (hf : env.findable env.pyExe = true) :
    ((run_bandit env fp).2 = Except.ok none ↔
      (env.inVenv = false ∨ env.pathExists fp = false)) ∧
    (env.inVenv = true → env.pathExists fp = true →
      ∃ s, (run_bandit env fp).2 = Except.ok (some s)) ∧
    (∀ returncode : Int, env.inVenv = true → env.pathExists fp = true →
      env.exec [env.pyExe, "-m", "bandit", "-r", fp] = (returncode, "", "") →
      returncode ≠ 0 → (run_bandit env fp).2 = Except.ok (some "")) := by
  refine ⟨⟨?_, ?_⟩, fun hv hp => run_bandit_some env fp hv hp hf, ?_⟩
  · intro h
    rcases Bool.eq_false_or_eq_true env.inVenv with hv | hv
    · rcases Bool.eq_false_or_eq_true (env.pathExists fp) with hp | hp
      · obtain ⟨s, hs⟩ := run_bandit_some env fp hv hp hf
        rw [hs] at h
        exact absurd h (by simp)
      · exact Or.inr hp
    · exact Or.inl hv
  · intro h
    rcases h with hv | hp
    · simp [run_bandit, is_virtual_environment, hv]
    · rcases Bool.eq_false_or_eq_true env.inVenv with hv | hv <;>
        simp [run_bandit, is_virtual_environment, hv, hp]
  · intro c hv hp hx hc
    by_cases h1 : c = 1
    · subst h1
      simp [run_bandit, is_virtual_environment, subprocessRunCheck, hv, hp, hf, hx]
    · simp [run_bandit, is_virtual_environment, subprocessRunCheck, hv, hp, hf,
        hx, hc, h1]

/-- C9 witness: with both streams empty and exit 3, run_bandit returns the
empty string, not None, and None is characterized by the precondition
failures. -/
theorem claim_C9_witness :
    ((run_bandit banditEmptyStreamsEnv "proj").2 = Except.ok none ↔
      (banditEmptyStreamsEnv.inVenv = false ∨
        banditEmptyStreamsEnv.pathExists "proj" = false)) ∧
    (banditEmptyStreamsEnv.inVenv = true →
      banditEmptyStreamsEnv.pathExists "proj" = true →
      ∃ s, (run_bandit banditEmptyStreamsEnv "proj").2 = Except.ok (some s)) ∧
    (∀ returncode : Int, banditEmptyStreamsEnv.inVenv = true →
      banditEmptyStreamsEnv.pathExists "proj" = true →
      banditEmptyStreamsEnv.exec
        [banditEmptyStreamsEnv.pyExe, "-m", "bandit", "-r", "proj"] =
          (returncode, "", "") →
      returncode ≠ 0 →
      (run_bandit banditEmptyStreamsEnv "proj").2 = Except.ok (some "")) :=
  claim_C9 banditEmptyStreamsEnv "proj" rfl

/-- When both run_bandit preconditions hold, the first three events are the
section header, the log line, and the spawn of
`sys.executable -m bandit -r <path>`, whatever the subprocess then does. -/
lemma run_bandit_take3 (env : Env) (fp : String) (hv : env.inVenv = true)
    (hp : env.pathExists fp = true) :
    (run_bandit env fp).1.take 3 =
      [Event.print ("Running Bandit on '" ++ fp ++ "'...\n"),
       Event.logInfo ("Running Bandit on '" ++ fp ++ "'."),
       Event.spawn [env.pyExe, "-m", "bandit", "-r", fp]] := by
  rcases hs : subprocessRunCheck env [env.pyExe, "-m", "bandit", "-r", fp] with
    e | ⟨out, err⟩
  · rcases e with _ | ⟨c, out, err⟩
    · simp [run_bandit, is_virtual_environment, hv, hp, hs]
    · by_cases h1 : c = 1 <;>
        simp [run_bandit, is_virtual_environment, hv, hp, hs, h1]
  · simp [run_bandit, is_virtual_environment, hv, hp, hs]

/-- C10: when the prompt input strips to the empty string, the scanned path
becomes Path('') = '.', which exists, so (inside a virtual environment)
prompt_and_run_bandit takes the scan branch — header, log line and recursive
bandit spawn over '.' — instead of reporting a path error. -/
theorem claim_C10 (env : Env) (ht : pyStrip env.userInput = "")
    (hv : env.inVenv = true) (hp : env.pathExists "." = true) :
    prompt_and_run_bandit env = run_bandit env "." ∧
    (prompt_and_run_bandit env).1.take 3 =
      [Event.print ("Running Bandit on '" ++ "." ++ "'...\n"),
       Event.logInfo ("Running Bandit on '" ++ "." ++ "'."),
       Event.spawn [env.pyExe, "-m", "bandit", "-r", "."]] ∧
    Event.spawn [env.pyExe, "-m", "bandit", "-r", "."] ∈
      (prompt_and_run_bandit env).1 := by
  have he : prompt_and_run_bandit env = run_bandit env "." := by
    simp [prompt_and_run_bandit, pathOfString, ht]
  have h3 := run_bandit_take3 env "." hv hp
  refine ⟨he, by rw [he]; exact h3, ?_⟩
  rw [he]
  apply List.take_subset 3
  rw [h3]
  simp

/-- C10 witness: a prompt answer of three spaces makes Bandit scan '.'
recursively. -/
theorem claim_C10_witness :
    prompt_and_run_bandit whitespaceEnv = run_bandit whitespaceEnv "." ∧
    (prompt_and_run_bandit whitespaceEnv).1.take 3 =
      [Event.print ("Running Bandit on '" ++ "." ++ "'...\n"),
       Event.logInfo ("Running Bandit on '" ++ "." ++ "'."),
       Event.spawn [whitespaceEnv.pyExe, "-m", "bandit", "-r", "."]] ∧
    Event.spawn [whitespaceEnv.pyExe, "-m", "bandit", "-r", "."] ∈
      (prompt_and_run_bandit whitespaceEnv).1 :=
  claim_C10 whitespaceEnv (by decide) rfl rfl

end SecuritySdk

namespace SecuritySdk

/-- A probe that does not fail has a findable executable and exit code 0. -/
lemma probeOk_of_not_fails (env : Env) (cmd : List String)
    (h : ¬ probeFails env cmd) :
    env.findable (cmd.head?.getD "") = true ∧ (env.exec cmd).1 = 0 := by
  rw [probeFails] at h
  push_neg at h
  obtain ⟨ha, hb⟩ := h
  exact ⟨by simpa using ha, hb⟩

/-- A successful probe makes verify_tool_installed log success and return. -/
lemma verify_ok (env : Env) (tool_name : String) (cmd : List String)
    (h1 : env.findable (cmd.head?.getD "") = true) (h2 : (env.exec cmd).1 = 0) :
    verify_tool_installed env tool_name cmd =
      ([Event.spawn cmd, Event.logInfo (tool_name ++ " is installed.")],
       none) := by
  rcases hx : env.exec cmd with ⟨c, out, err⟩
  rw [hx] at h2
  simp only [] at h2
  subst h2
  simp [verify_tool_installed, subprocessRunCheck, h1, hx]

/-- A failing probe (executable not found or non-zero exit) makes
verify_tool_installed print and log the remediation message and exit 1. -/
lemma verify_fail (env : Env) (tool_name : String) (cmd : List String)
    (h : probeFails env cmd) :
    verify_tool_installed env tool_name cmd =
      ([Event.spawn cmd, Event.print (remediationMsg tool_name),
        Event.logError (remediationMsg tool_name)], some 1) := by
  rcases h with hnf | hnz
  · simp [verify_tool_installed, subprocessRunCheck, hnf]
  · rcases Bool.eq_false_or_eq_true (env.findable (cmd.head?.getD "")) with hfd | hfd
    · rcases hx : env.exec cmd with ⟨c, out, err⟩
      rw [hx] at hnz
      simp only [] at hnz
      simp [verify_tool_installed, subprocessRunCheck, hfd, hx, hnz]
    · simp [verify_tool_installed, subprocessRunCheck, hfd]

/-- When the pip-audit probe fails, __init__ stops there: remediation events
for pip-audit only, and sys.exit(1). -/
lemma scannerInit_fail1 (env : Env) (h : probeFails env pipAuditProbe) :
    scannerInit env =
      ([Event.spawn pipAuditProbe, Event.print (remediationMsg "pip-audit"),
        Event.logError (remediationMsg "pip-audit")], some 1) := by
  simp [scannerInit, verify_fail env "pip-audit" pipAuditProbe h]

/-- When the pip-audit probe succeeds and the safety probe fails, __init__
logs pip-audit success, emits the safety remediation, and exits 1. -/
lemma scannerInit_fail2 (env : Env) (h1 : ¬ probeFails env pipAuditProbe)
    (h2 : probeFails env safetyProbe) :
    scannerInit env =
      ([Event.spawn pipAuditProbe, Event.logInfo "pip-audit is installed.",
        Event.spawn safetyProbe, Event.print (remediationMsg "safety"),
        Event.logError (remediationMsg "safety")], some 1) := by
  obtain ⟨ha, hb⟩ := probeOk_of_not_fails env pipAuditProbe h1
  simp [scannerInit, verify_ok env "pip-audit" pipAuditProbe ha hb,
    verify_fail env "safety" safetyProbe h2]

/-- When both probes succeed, __init__ runs each probe once, in order, and
returns without exiting. -/
lemma scannerInit_ok (env : Env) (h1 : ¬ probeFails env pipAuditProbe)
    (h2 : ¬ probeFails env safetyProbe) :
    scannerInit env =
      ([Event.spawn pipAuditProbe, Event.logInfo "pip-audit is installed.",
        Event.spawn safetyProbe, Event.logInfo "safety is installed."],
       none) := by
  obtain ⟨ha1, hb1⟩ := probeOk_of_not_fails env pipAuditProbe h1
  obtain ⟨ha2, hb2⟩ := probeOk_of_not_fails env safetyProbe h2
  simp [scannerInit, verify_ok env "pip-audit" pipAuditProbe ha1 hb1,
    verify_ok env "safety" safetyProbe ha2 hb2]

/-- C2: the availability check probes each registered tool (pip-audit, then
safety) exactly once before any scan event, and a failing probe makes the
program print and log the remediation message naming that tool and its
install instruction and terminate with exit code 1, with only probe spawns
in the whole trace (no scan ever ran). -/
theorem claim_C2 (env : Env) :
    ((scannerInit env).2 = none →
      (scannerInit env).1 =
        [Event.spawn pipAuditProbe, Event.logInfo "pip-audit is installed.",
         Event.spawn safetyProbe, Event.logInfo "safety is installed."] ∧
      (main_program env).1 = (scannerInit env).1 ++ (run_all_scans env).1) ∧
    (probeFails env pipAuditProbe →
      main_program env =
        ([Event.spawn pipAuditProbe, Event.print (remediationMsg "pip-audit"),
          Event.logError (remediationMsg "pip-audit")],
         Termination.exited 1)) ∧
    (¬ probeFails env pipAuditProbe → probeFails env safetyProbe →
      main_program env =
        ([Event.spawn pipAuditProbe, Event.logInfo "pip-audit is installed.",
          Event.spawn safetyProbe, Event.print (remediationMsg "safety"),
          Event.logError (remediationMsg "safety")],
         Termination.exited 1)) := by
  refine ⟨?_, ?_, ?_⟩
  · intro h
    by_cases h1 : probeFails env pipAuditProbe
    · rw [scannerInit_fail1 env h1] at h
      simp at h
    · by_cases h2 : probeFails env safetyProbe
      · rw [scannerInit_fail2 env h1 h2] at h
        simp at h
      · have hs := scannerInit_ok env h1 h2
        refine ⟨by rw [hs], ?_⟩
        rcases hr : run_all_scans env with ⟨es, r⟩
        cases r <;> simp [main_program, hs, hr]
  · intro h1
    simp [main_program, scannerInit_fail1 env h1]
  · intro h1 h2
    simp [main_program, scannerInit_fail2 env h1 h2]

/-- C2 witness: with no executables findable, the program emits exactly the
pip-audit probe spawn and remediation message and exits 1 before any scan. -/
theorem claim_C2_witness :
    main_program noToolsEnv =
      ([Event.spawn pipAuditProbe, Event.print (remediationMsg "pip-audit"),
        Event.logError (remediationMsg "pip-audit")],
       Termination.exited 1) :=
  (claim_C2 noToolsEnv).2.1 (Or.inl rfl)

/-- run_pip_audit never raises when the pip-audit executable is findable:
CalledProcessError is caught at the adapter boundary. -/
lemma run_pip_audit_no_crash (env : Env)
    (h : env.findable "pip-audit" = true) :
    ∃ o, (run_pip_audit env).2 = Except.ok o := by
  rcases hx : env.exec ["pip-audit"] with ⟨c, out, err⟩
  by_cases hc : c = 0
  · subst hc
    exact ⟨some out, by simp [run_pip_audit, subprocessRunCheck, h, hx]⟩
  · exact ⟨none, by simp [run_pip_audit, subprocessRunCheck, h, hx, hc]⟩

/-- run_safety never raises when the safety executable is findable. -/
lemma run_safety_no_crash (env : Env) (h : env.findable "safety" = true) :
    ∃ o, (run_safety env).2 = Except.ok o := by
  rcases hx : env.exec ["safety", "check", "--full-report"] with ⟨c, out, err⟩
  by_cases hc : c = 0
  · subst hc
    exact ⟨some out, by simp [run_safety, subprocessRunCheck, h, hx]⟩
  · by_cases h1 : c = 1
    · subst h1
      exact ⟨some out, by simp [run_safety, subprocessRunCheck, h, hx]⟩
    · exact ⟨none, by simp [run_safety, subprocessRunCheck, h, hx, hc, h1]⟩

/-- run_bandit never raises when the interpreter executable is findable:
both precondition refusals and CalledProcessError return normally. -/
lemma run_bandit_no_crash (env : Env) (fp : String)
    (hf : env.findable env.pyExe = true) :
    ∃ o, (run_bandit env fp).2 = Except.ok o := by
  rcases Bool.eq_false_or_eq_true env.inVenv with hv | hv
  · rcases Bool.eq_false_or_eq_true (env.pathExists fp) with hp | hp
    · obtain ⟨s, hs⟩ := run_bandit_some env fp hv hp hf
      exact ⟨some s, hs⟩
    · exact ⟨none, by simp [run_bandit, is_virtual_environment, hv, hp]⟩
  · exact ⟨none, by simp [run_bandit, is_virtual_environment, hv]⟩

/-- prompt_and_run_bandit never raises when the interpreter executable is
findable. -/
lemma prompt_no_crash (env : Env) (hf : env.findable env.pyExe = true) :
    ∃ o, (prompt_and_run_bandit env).2 = Except.ok o := by
  obtain ⟨o, ho⟩ :=
    run_bandit_no_crash env (pathOfString (pyStrip env.userInput)) hf
  exact ⟨o, by simpa [prompt_and_run_bandit] using ho⟩

/-- When every adapter returns normally, run_all_scans returns normally and
its trace ends with the completion banner. -/
lemma run_all_scans_ok (env : Env)
    (h1 : ∃ o, (run_pip_audit env).2 = Except.ok o)
    (h2 : ∃ o, (run_safety env).2 = Except.ok o)
    (h3 : ∃ o, (prompt_and_run_bandit env).2 = Except.ok o) :
    (run_all_scans env).2 = Except.ok () ∧
    Event.print "\nSecurity scans completed." ∈ (run_all_scans env).1 := by
  obtain ⟨o1, ho1⟩ := h1
  obtain ⟨o2, ho2⟩ := h2
  obtain ⟨o3, ho3⟩ := h3
  rcases hp1 : run_pip_audit env with ⟨e1, r1⟩
  rcases hp2 : run_safety env with ⟨e2, r2⟩
  rcases hp3 : prompt_and_run_bandit env with ⟨e3, r3⟩
  rw [hp1] at ho1
  rw [hp2] at ho2
  rw [hp3] at ho3
  simp only [] at ho1 ho2 ho3
  subst ho1
  subst ho2
  subst ho3
  simp [run_all_scans, hp1, hp2, hp3]

/-- C3: once the preflight check has passed (and the running interpreter
executable is findable), no per-scan failure terminates the program: every
run ends in normal completion with process exit 0 and reaches the completion
banner; the only other termination is the preflight sys.exit(1). -/
theorem claim_C3 (env : Env) (hpy : env.findable env.pyExe = true) :
    ((scannerInit env).2 = none →
      (main_program env).2 = Termination.normal 0 ∧
      Event.print "\nSecurity scans completed." ∈ (main_program env).1) ∧
    ((scannerInit env).2 ≠ none →
      (main_program env).2 = Termination.exited 1) := by
  by_cases h1 : probeFails env pipAuditProbe
  · have hs := scannerInit_fail1 env h1
    constructor
    · intro h
      rw [hs] at h
      simp at h
    · intro _
      simp [main_program, hs]
  · by_cases h2 : probeFails env safetyProbe
    · have hs := scannerInit_fail2 env h1 h2
      constructor
      · intro h
        rw [hs] at h
        simp at h
      · intro _
        simp [main_program, hs]
    · have hs := scannerInit_ok env h1 h2
      obtain ⟨ha1, hb1⟩ := probeOk_of_not_fails env pipAuditProbe h1
      obtain ⟨ha2, hb2⟩ := probeOk_of_not_fails env safetyProbe h2
      have hall := run_all_scans_ok env
        (run_pip_audit_no_crash env (by simpa [pipAuditProbe] using ha1))
        (run_safety_no_crash env (by simpa [safetyProbe] using ha2))
        (prompt_no_crash env hpy)
      constructor
      · intro _
        rcases hr : run_all_scans env with ⟨es, r⟩
        rw [hr] at hall
        obtain ⟨hok, hmem⟩ := hall
        simp only [] at hok
        subst hok
        constructor
        · simp [main_program, hs, hr]
        · simp only [main_program, hs, hr]
          simp only [List.mem_append]
          exact Or.inr (by simpa using hmem)
      · intro h
        rw [hs] at h
        simp at h

/-- C3 witness: in the all-success environment the program terminates
normally with exit code 0 and prints the completion banner. -/
theorem claim_C3_witness :
    (main_program allOkEnv).2 = Termination.normal 0 ∧
    Event.print "\nSecurity scans completed." ∈ (main_program allOkEnv).1 :=
  (claim_C3 allOkEnv rfl).1 (by decide)

end SecuritySdk

namespace SecuritySdk

/-- C7: with all three adapters succeeding, run_all_scans prints the three
section headers in the fixed order audit, safety, static-analysis, with the
separator line between consecutive sections and the completion banner after
the last; the three headers are pairwise distinct. -/
theorem claim_C7 (env : Env) (p o1 x1 o2 x2 o3 x3 : String)
    (hpe : pathOfString (pyStrip env.userInput) = p)
    (hf1 : env.findable "pip-audit" = true)
    (hf2 : env.findable "safety" = true)
    (hf3 : env.findable env.pyExe = true)
    (hv : env.inVenv = true)
    (hp : env.pathExists p = true)
    (hx1 : env.exec ["pip-audit"] = (0, o1, x1))
    (hx2 : env.exec ["safety", "check", "--full-report"] = (0, o2, x2))
    (hx3 : env.exec [env.pyExe, "-m", "bandit", "-r", p] = (0, o3, x3)) :
    run_all_scans env =
      ([Event.print "Starting all security scans...\n",
        Event.logInfo "Starting all security scans.",
        Event.print "Running pip-audit...\n",
        Event.logInfo "Running pip-audit.",
        Event.spawn ["pip-audit"], Event.print "pip-audit Results:\n",
        Event.print o1, Event.logInfo "pip-audit completed successfully.",
        Event.print separatorLine,
        Event.print "Running Safety...\n", Event.logInfo "Running Safety.",
        Event.spawn ["safety", "check", "--full-report"],
        Event.print "Safety Results:\n", Event.print o2,
        Event.logInfo "Safety completed successfully.",
        Event.print separatorLine,
        Event.print ("Running Bandit on '" ++ p ++ "'...\n"),
        Event.logInfo ("Running Bandit on '" ++ p ++ "'."),
        Event.spawn [env.pyExe, "-m", "bandit", "-r", p],
        Event.print "Bandit Results:\n", Event.print o3,
        Event.logInfo "Bandit completed successfully.",
        Event.print "\nSecurity scans completed.",
        Event.logInfo "All security scans completed."],
       Except.ok ()) ∧
    List.Sublist
      [Event.print "Running pip-audit...\n", Event.print separatorLine,
       Event.print "Running Safety...\n", Event.print separatorLine,
       Event.print ("Running Bandit on '" ++ p ++ "'...\n"),
       Event.print "\nSecurity scans completed."]
      (run_all_scans env).1 ∧
    ("Running pip-audit...\n" : String) ≠ "Running Safety...\n" ∧
    ("Running pip-audit...\n" : String) ≠ "Running Bandit on '" ++ p ++ "'...\n" ∧
    ("Running Safety...\n" : String) ≠ "Running Bandit on '" ++ p ++ "'...\n" := by
  have htr : run_all_scans env =
      ([Event.print "Starting all security scans...\n",
        Event.logInfo "Starting all security scans.",
        Event.print "Running pip-audit...\n",
        Event.logInfo "Running pip-audit.",
        Event.spawn ["pip-audit"], Event.print "pip-audit Results:\n",
        Event.print o1, Event.logInfo "pip-audit completed successfully.",
        Event.print separatorLine,
        Event.print "Running Safety...\n", Event.logInfo "Running Safety.",
        Event.spawn ["safety", "check", "--full-report"],
        Event.print "Safety Results:\n", Event.print o2,
        Event.logInfo "Safety completed successfully.",
        Event.print separatorLine,
        Event.print ("Running Bandit on '" ++ p ++ "'...\n"),
        Event.logInfo ("Running Bandit on '" ++ p ++ "'."),
        Event.spawn [env.pyExe, "-m", "bandit", "-r", p],
        Event.print "Bandit Results:\n", Event.print o3,
        Event.logInfo "Bandit completed successfully.",
        Event.print "\nSecurity scans completed.",
        Event.logInfo "All security scans completed."],
       Except.ok ()) := by
    simp [run_all_scans, run_pip_audit, run_safety, prompt_and_run_bandit,
      run_bandit, is_virtual_environment, subprocessRunCheck,
      hpe, hf1, hf2, hf3, hv, hp, hx1, hx2, hx3]
  have hlen1 : ("Running pip-audit...\n" : String).length = 21 := rfl
  have hlen2 : ("Running Safety...\n" : String).length = 18 := rfl
  have hlen3 : ("Running Bandit on '" : String).length = 19 := rfl
  have hlen4 : ("'...\n" : String).length = 5 := rfl
  refine ⟨htr, ?_, by decide, ?_, ?_⟩
  · have h1 : (run_all_scans env).1 =
        [Event.print "Starting all security scans...\n",
         Event.logInfo "Starting all security scans.",
         Event.print "Running pip-audit...\n",
         Event.logInfo "Running pip-audit.",
         Event.spawn ["pip-audit"], Event.print "pip-audit Results:\n",
         Event.print o1, Event.logInfo "pip-audit completed successfully.",
         Event.print separatorLine,
         Event.print "Running Safety...\n", Event.logInfo "Running Safety.",
         Event.spawn ["safety", "check", "--full-report"],
         Event.print "Safety Results:\n", Event.print o2,
         Event.logInfo "Safety completed successfully.",
         Event.print separatorLine,
         Event.print ("Running Bandit on '" ++ p ++ "'...\n"),
         Event.logInfo ("Running Bandit on '" ++ p ++ "'."),
         Event.spawn [env.pyExe, "-m", "bandit", "-r", p],
         Event.print "Bandit Results:\n", Event.print o3,
         Event.logInfo "Bandit completed successfully.",
         Event.print "\nSecurity scans completed.",
         Event.logInfo "All security scans completed."] := by
      rw [htr]
    rw [h1]
    repeat first
    | exact List.nil_sublist _
    | apply List.Sublist.cons₂
    | apply List.Sublist.cons
  · intro h
    have h2 := congrArg String.length h
    rw [String.length_append, String.length_append, hlen1, hlen3, hlen4] at h2
    omega
  · intro h
    have h2 := congrArg String.length h
    rw [String.length_append, String.length_append, hlen2, hlen3, hlen4] at h2
    omega

/-- C7 witness: in the all-success environment (prompt answer "x"), the full
trace, the ordered header/separator/banner subsequence, and the header
distinctness, all at concrete inputs. -/
theorem claim_C7_witness :
    run_all_scans allOkEnv =
      ([Event.print "Starting all security scans...\n",
        Event.logInfo "Starting all security scans.",
        Event.print "Running pip-audit...\n",
        Event.logInfo "Running pip-audit.",
        Event.spawn ["pip-audit"], Event.print "pip-audit Results:\n",
        Event.print "", Event.logInfo "pip-audit completed successfully.",
        Event.print separatorLine,
        Event.print "Running Safety...\n", Event.logInfo "Running Safety.",
        Event.spawn ["safety", "check", "--full-report"],
        Event.print "Safety Results:\n", Event.print "",
        Event.logInfo "Safety completed successfully.",
        Event.print separatorLine,
        Event.print ("Running Bandit on '" ++ "x" ++ "'...\n"),
        Event.logInfo ("Running Bandit on '" ++ "x" ++ "'."),
        Event.spawn [allOkEnv.pyExe, "-m", "bandit", "-r", "x"],
        Event.print "Bandit Results:\n", Event.print "",
        Event.logInfo "Bandit completed successfully.",
        Event.print "\nSecurity scans completed.",
        Event.logInfo "All security scans completed."],
       Except.ok ()) ∧
    List.Sublist
      [Event.print "Running pip-audit...\n", Event.print separatorLine,
       Event.print "Running Safety...\n", Event.print separatorLine,
       Event.print ("Running Bandit on '" ++ "x" ++ "'...\n"),
       Event.print "\nSecurity scans completed."]
      (run_all_scans allOkEnv).1 ∧
    ("Running pip-audit...\n" : String) ≠ "Running Safety...\n" ∧
    ("Running pip-audit...\n" : String) ≠ "Running Bandit on '" ++ "x" ++ "'...\n" ∧
    ("Running Safety...\n" : String) ≠ "Running Bandit on '" ++ "x" ++ "'...\n" :=
  claim_C7 allOkEnv "x" "" "" "" "" "" "" (by decide) rfl rfl rfl rfl rfl rfl
    rfl rfl

end SecuritySdk
